import Mathlib

/-!
# Yatube blog application: shallow embedding

The repository ships the test suites (`posts/tests/test_urls.py`,
`test_forms.py`, `test_views.py`, `about/tests.py`) and the migration
`posts/migrations/0008_auto_20220124_0500.py`; the application code itself
(models, views, forms, url conf) is not part of the excerpt.  The data model
and the request handlers below are therefore modelled from the specification,
faithful to its words; the `Follow` field constraints are embedded directly
from the migration file, which is present.
-/

namespace Yatube

/-- A group: title, slug, description (spec §3, data model table). -/
structure Group where
  id : Nat
  title : String
  slug : String
  description : String
deriving DecidableEq

/-- A post: text, optional image, optional group reference, author
(spec §3: "text, optional image, optional Group reference, author (User)"). -/
structure Post where
  id : Nat
  text : String
  author : String
  group : Option Nat
  image : Option String
deriving DecidableEq

/-- A comment: text, author, belongs to one post (spec §3). -/
structure Comment where
  id : Nat
  postId : Nat
  author : String
  text : String
deriving DecidableEq

/-- A follow row: follower (`user`) and followed author (`author`).
Both columns are nullable per migration 0008 (`blank=True, null=True`). -/
structure Follow where
  user : Option String
  author : Option String
deriving DecidableEq

/-- The persistent store.  `posts` is kept newest-first (Django's
`Post.objects.first()` in the tests returns the latest post); `comments`
is kept in creation order ("ordered by creation; latest comment is last",
spec §3). -/
structure DB where
  groups : List Group
  posts : List Post
  comments : List Comment
  follows : List Follow
  nextPostId : Nat
  nextCommentId : Nat
deriving DecidableEq

/-- Total number of stored posts (`Post.objects.count()`). -/
def DB.postCount (db : DB) : Nat := db.posts.length

/-- Look a post up by its primary key. -/
def DB.findPost (db : DB) (pid : Nat) : Option Post :=
  db.posts.find? (fun p => p.id == pid)

/-- The comments of one post, in creation order
(`post.comments`, ordered oldest to newest). -/
def DB.postComments (db : DB) (pid : Nat) : List Comment :=
  db.comments.filter (fun c => c.postId == pid)

/-- Modelled from the spec: the configured page size constant
`POSTS_PER_PAGE` (spec §4.2; §8 fixes it to 10: "13 items with page size 10
yields page 1 with 10 items, page 2 with 3 items").  The settings module is
not in the excerpt. -/
def POSTS_PER_PAGE : Nat := 10

/-- Modelled from the spec: the queryset of the index page — all posts
(spec §3: a post is always "visible on index").  `views.py` is not in the
excerpt. -/
def indexPosts (db : DB) : List Post := db.posts

/-- Modelled from the spec: the queryset of a group's listing page — the
posts created with a reference to that group (spec §4.2: "A post belongs to
a group's listing if and only if it was created with that group reference").
`views.py` is not in the excerpt. -/
def groupPosts (db : DB) (g : Group) : List Post :=
  db.posts.filter (fun p => p.group == some g.id)

/-- Modelled from the spec: the queryset of a user's profile page — that
author's posts (spec §3: a post is visible on the "author's profile").
`views.py` is not in the excerpt. -/
def profilePosts (db : DB) (username : String) : List Post :=
  db.posts.filter (fun p => p.author == username)

/-- Modelled from the spec: Django-style pagination — page `n` (1-based)
holds the items from position `(n-1)*size` up to `n*size` (spec §4.2's
paging contract). -/
def paginate {α : Type} (pageSize : Nat) (items : List α) (page : Nat) : List α :=
  (items.drop ((page - 1) * pageSize)).take pageSize

/-- The number of the last page: `ceil(total / pageSize)`, as computed in
`PaginatorViewsTests.setUpClass` (`ceil(POSTS_TOTAL / settings.POSTS_PER_PAGE)`). -/
def lastPage (pageSize total : Nat) : Nat := (total + pageSize - 1) / pageSize

/-- One page of the index listing. -/
def indexPage (db : DB) (page : Nat) : List Post :=
  paginate POSTS_PER_PAGE (indexPosts db) page

/-- One page of a group's listing. -/
def groupPage (db : DB) (g : Group) (page : Nat) : List Post :=
  paginate POSTS_PER_PAGE (groupPosts db g) page

/-- One page of a profile's listing. -/
def profilePage (db : DB) (username : String) (page : Nat) : List Post :=
  paginate POSTS_PER_PAGE (profilePosts db username) page

/-- A client: anonymous guest or an authenticated user (spec §2, Identity). -/
inductive Client where
  | guest
  | auth (username : String)
deriving DecidableEq

/-- HTTP method of a request. -/
inductive Method where
  | get
  | post
deriving DecidableEq

/-- The routed paths of the posts app (spec §6, external interfaces). -/
inductive Route where
  | index
  | groupList (slug : String)
  | profile (username : String)
  | postDetail (postId : Nat)
  | createPost
  | postEdit (postId : Nat)
  | addComment (postId : Nat)
  | followFeed
  | profileFollow (username : String)
  | profileUnfollow (username : String)
deriving DecidableEq

/-- The URL path of a route, as laid out in spec §6 and in the literal
addresses of `test_urls.py`. -/
def routePath : Route → String
  | .index => "/"
  | .groupList slug => "/group/" ++ slug ++ "/"
  | .profile u => "/profile/" ++ u ++ "/"
  | .postDetail pid => "/posts/" ++ toString pid ++ "/"
  | .createPost => "/create/"
  | .postEdit pid => "/posts/" ++ toString pid ++ "/edit/"
  | .addComment pid => "/posts/" ++ toString pid ++ "/comment/"
  | .followFeed => "/follow/"
  | .profileFollow u => "/profile/" ++ u ++ "/follow/"
  | .profileUnfollow u => "/profile/" ++ u ++ "/unfollow/"

/-- The protected paths named by the spec (§4.1): post creation, adding a
comment, the follow feed, and the profile follow/unfollow actions. -/
def protectedRoute : Route → Bool
  | .createPost => true
  | .addComment _ => true
  | .followFeed => true
  | .profileFollow _ => true
  | .profileUnfollow _ => true
  | _ => false

/-- Modelled from the spec: the routes behind Django's login requirement.
These are the protected paths of spec §4.1 plus the edit form, which spec §6
marks "auth required" / "author-only".  `urls.py`/`views.py` are not in the
excerpt. -/
def requiresLogin (r : Route) : Bool :=
  protectedRoute r || (match r with | .postEdit _ => true | _ => false)

/-- An HTTP response, as far as the tests observe it: a rendered template,
a redirect to a location, or a 404. -/
inductive Response where
  | ok (template : String)
  | redirect (location : String)
  | notFound
deriving DecidableEq

/-- Submitted form data: the fields of the post form (`text`, `group`,
`image`) and of the comment form (`text`). -/
structure FormData where
  text : Option String
  group : Option Nat
  image : Option String
deriving DecidableEq

/-- Modelled from the spec: validity of the post form — "Creating a post
requires non-empty text; group and image are optional" (spec §4.3).
`forms.py` is not in the excerpt. -/
def FormData.validText : FormData → Option String
  | fd => match fd.text with
    | some t => if t = "" then none else some t
    | none => none

/-- Modelled from the spec: the post-creation view (spec §4.3: "On success:
redirects to the creating author's profile, increments total post count by
exactly one, and sets text/group/author fields to submitted values").
`views.py` is not in the excerpt. -/
def create_post (db : DB) (user : String) (m : Method) (fd : FormData) :
    DB × Response :=
  match m with
  | .get => (db, .ok "posts/create_post.html")
  | .post =>
    match fd.validText with
    | some t =>
      let p : Post :=
        { id := db.nextPostId, text := t, author := user,
          group := fd.group, image := fd.image }
      ({ db with posts := p :: db.posts, nextPostId := db.nextPostId + 1 },
       .redirect (routePath (.profile user)))
    | none => (db, .ok "posts/create_post.html")

/-- Replace the fields of the post `pid` with the submitted values, keeping
id and author; an absent image submission keeps the stored image. -/
def DB.updatePost (db : DB) (pid : Nat) (t : String) (g : Option Nat)
    (img : Option String) : DB :=
  { db with posts := db.posts.map (fun p =>
      if p.id == pid then
        { p with text := t, group := g,
                 image := match img with | some i => some i | none => p.image }
      else p) }

/-- Modelled from the spec: the post-edit view (spec §4.1: "Authenticated
non-author requests to edit another user's post redirect to that post's
detail page"; §4.3: "Editing a post accepts the same field set; must not
change the post's author; on success redirects to the post's detail page and
leaves total post count unchanged").  `views.py` is not in the excerpt. -/
def post_edit (db : DB) (user : String) (pid : Nat) (m : Method)
    (fd : FormData) : DB × Response :=
  match db.findPost pid with
  | none => (db, .notFound)
  | some p =>
    if p.author ≠ user then (db, .redirect (routePath (.postDetail pid)))
    else match m with
      | .get => (db, .ok "posts/create_post.html")
      | .post =>
        match fd.validText with
        | some t =>
          (db.updatePost pid t fd.group fd.image,
           .redirect (routePath (.postDetail pid)))
        | none => (db, .ok "posts/create_post.html")

/-- Append a new comment by `user` on post `pid` (comments are stored in
creation order, so the new comment is last). -/
def DB.addComment (db : DB) (pid : Nat) (user : String) (t : String) : DB :=
  { db with
    comments := db.comments ++
      [{ id := db.nextCommentId, postId := pid, author := user, text := t }],
    nextCommentId := db.nextCommentId + 1 }

/-- Modelled from the spec: the add-comment view (spec §4.3: "Creating a
comment requires non-empty text; associates comment with the submitting
(authenticated) user and the target post; on success redirects to the post
detail page"); a plain GET creates nothing and likewise redirects to the
detail page (`test_urls_redirect_authorized_users_to_desired_pages`).
`views.py` is not in the excerpt. -/
def add_comment (db : DB) (user : String) (pid : Nat) (m : Method)
    (fd : FormData) : DB × Response :=
  match db.findPost pid with
  | none => (db, .notFound)
  | some _ =>
    let db2 :=
      match m, fd.validText with
      | .post, some t => db.addComment pid user t
      | _, _ => db
    (db2, .redirect (routePath (.postDetail pid)))

/-- Modelled from the spec: the follow action — records the follow relation
and redirects back to the target profile (spec §3 lifecycles: "Follow
created/removed via dedicated follow/unfollow actions, redirecting back to
the target profile").  `views.py` is not in the excerpt. -/
def profile_follow (db : DB) (user : String) (target : String) :
    DB × Response :=
  let f : Follow := { user := some user, author := some target }
  let db2 :=
    if user ≠ target ∧ f ∉ db.follows then
      { db with follows := db.follows ++ [f] }
    else db
  (db2, .redirect (routePath (.profile target)))

/-- Modelled from the spec: the unfollow action — removes the follow
relation and redirects back to the target profile (spec §3 lifecycles).
`views.py` is not in the excerpt. -/
def profile_unfollow (db : DB) (user : String) (target : String) :
    DB × Response :=
  let keep : Follow → Bool :=
    fun f => !(f.user == some user && f.author == some target)
  ({ db with follows := db.follows.filter keep },
   .redirect (routePath (.profile target)))

/-- Modelled from the spec: the follow-feed queryset — the posts of the
authors the user follows (spec §6: `GET /follow/` → followed-authors feed). -/
def followPosts (db : DB) (user : String) : List Post :=
  db.posts.filter (fun p =>
    db.follows.any (fun f => f.user == some user && f.author == some p.author))

/-- Modelled from the spec: the request dispatcher.  An unauthenticated
request to a login-protected route redirects to
`/auth/login/?next=<original path>` (spec §4.1, §6); otherwise the route's
view runs (spec §2 control flow).  `urls.py` is not in the excerpt. -/
def handle (db : DB) (client : Client) (m : Method) (r : Route)
    (fd : FormData) : DB × Response :=
  match client with
  | .guest =>
    if requiresLogin r then
      (db, .redirect ("/auth/login/?next=" ++ routePath r))
    else
      match r with
      | .index => (db, .ok "posts/index.html")
      | .groupList _ => (db, .ok "posts/group_list.html")
      | .profile _ => (db, .ok "posts/profile.html")
      | .postDetail pid =>
        match db.findPost pid with
        | some _ => (db, .ok "posts/post_detail.html")
        | none => (db, .notFound)
      | _ => (db, .notFound)
  | .auth u =>
    match r with
    | .index => (db, .ok "posts/index.html")
    | .groupList _ => (db, .ok "posts/group_list.html")
    | .profile _ => (db, .ok "posts/profile.html")
    | .postDetail pid =>
      match db.findPost pid with
      | some _ => (db, .ok "posts/post_detail.html")
      | none => (db, .notFound)
    | .createPost => create_post db u m fd
    | .postEdit pid => post_edit db u pid m fd
    | .addComment pid => add_comment db u pid m fd
    | .followFeed => (db, .ok "posts/follow.html")
    | .profileFollow t => profile_follow db u t
    | .profileUnfollow t => profile_unfollow db u t

/-- The kind of a relational model field, as far as migration 0008 needs. -/
inductive FieldKind where
  | oneToOneField
  | foreignKeyField
deriving DecidableEq

/-- One `AlterField` operation of a Django migration. -/
structure AlterField where
  modelName : String
  name : String
  kind : FieldKind
  blank : Bool
  null : Bool
  relatedName : String
deriving DecidableEq

/-- The operations of `posts/migrations/0008_auto_20220124_0500.py`: both
`Follow.author` and `Follow.user` are altered to
`OneToOneField(blank=True, null=True, on_delete=CASCADE,
to=AUTH_USER_MODEL)`. -/
def migration0008 : List AlterField :=
  [ { modelName := "follow", name := "author", kind := .oneToOneField,
      blank := true, null := true, relatedName := "following" },
    { modelName := "follow", name := "user", kind := .oneToOneField,
      blank := true, null := true, relatedName := "follower" } ]

/-- The value a `Follow` row holds in a named column. -/
def Follow.col (f : Follow) : String → Option String
  | "author" => f.author
  | "user" => f.user
  | _ => none

/-- The columns of the `follow` table that migration 0008 declares as
`OneToOneField` — a one-to-one field carries a UNIQUE constraint on its
column. -/
def uniqueFollowCols : List String :=
  (migration0008.filter (fun af =>
    af.modelName == "follow" && af.kind == FieldKind.oneToOneField)).map
    (fun af => af.name)

/-- The non-null values a follows table holds in a column. -/
def colValues (fs : List Follow) (c : String) : List String :=
  fs.filterMap (fun f => f.col c)

/-- The follows table satisfies the schema constraints laid down by
migration 0008: every one-to-one column holds pairwise-distinct non-null
values (SQL UNIQUE ignores NULLs, matching `null=True`). -/
def followsWF (fs : List Follow) : Prop :=
  ∀ c ∈ uniqueFollowCols, (colValues fs c).Nodup

instance : DecidablePred followsWF := fun fs =>
  List.decidableBAll (fun c => (colValues fs c).Nodup) uniqueFollowCols

/-- A concrete group, as in the test fixtures. -/
def group1 : Group :=
  { id := 1, title := "Test group", slug := "test-slug",
    description := "Test description" }

/-- A concrete post by `author`, as in the test fixtures. -/
def post1 : Post :=
  { id := 1, text := "First post", author := "author",
    group := none, image := none }

/-- A concrete store: one group, one post, no comments, no follows. -/
def db0 : DB :=
  { groups := [group1], posts := [post1], comments := [], follows := [],
    nextPostId := 2, nextCommentId := 1 }

/-- A concrete valid post form: non-empty text, group 1, no image. -/
def fd0 : FormData :=
  { text := some "Test text", group := some 1, image := none }

/-- An empty form submission. -/
def fdEmpty : FormData := { text := none, group := none, image := none }

/-- A store with 13 posts of `author` in group 1, as in
`PaginatorViewsTests` (`POSTS_TOTAL = 13`). -/
def db13 : DB :=
  { groups := [group1],
    posts := (List.range 13).map (fun i =>
      { id := i, text := "post", author := "author",
        group := some 1, image := none }),
    comments := [], follows := [], nextPostId := 13, nextCommentId := 1 }

/-- A concrete follow row: `follower` follows `author`, as in the
`PostsURLTests` fixture. -/
def follow1 : Follow := { user := some "follower", author := some "author" }

theorem Follow.col_user (f : Follow) : f.col "user" = f.user := rfl

theorem Follow.col_author (f : Follow) : f.col "author" = f.author := rfl

/-- In a duplicate-free projection, each value is hit by at most one row. -/
theorem length_filter_le_one_of_nodup_filterMap {α β : Type} [DecidableEq β]
    (g : α → Option β) (l : List α) (hnd : (l.filterMap g).Nodup) (v : β) :
    (l.filter (fun a => g a == some v)).length ≤ 1 := by
  induction l with
  | nil => simp
  | cons a l ih =>
    cases hga : g a with
    | none =>
      rw [List.filterMap_cons, hga] at hnd
      simpa [List.filter_cons, hga] using ih hnd
    | some b =>
      rw [List.filterMap_cons, hga] at hnd
      rcases List.nodup_cons.mp hnd with ⟨hb, hnd'⟩
      by_cases hbv : b = v
      · subst hbv
        have hnil : l.filter (fun a => g a == some b) = [] := by
          apply List.filter_eq_nil_iff.mpr
          intro x hx hgx
          exact hb (List.mem_filterMap.mpr ⟨x, hx, by simpa using hgx⟩)
        simp [List.filter_cons, hga, hnil]
      · have : (g a == some v) = false := by simp [hga, hbv]
        simpa [List.filter_cons, this] using ih hnd'

/-- C1: for every protected path P (post creation at `/create/`, adding a
comment at `/posts/<id>/comment/`, the follow feed at `/follow/`, and
`/profile/<username>/follow/` and `/profile/<username>/unfollow/`), a
request from an unauthenticated client — any method, any form data —
yields a redirect to `/auth/login/?next=P`, the original target path
preserved in the `next` parameter. -/
theorem C1_guest_redirected_to_login (db : DB) (m : Method) (r : Route)
    (fd : FormData) (h : protectedRoute r = true) :
    handle db .guest m r fd =
      (db, .redirect ("/auth/login/?next=" ++ routePath r)) := by
  cases r <;> simp_all [handle, requiresLogin, protectedRoute]

/-- Witness for C1: the comment route of post 1, requested anonymously. -/
theorem C1_witness :
    protectedRoute (.addComment 1) = true ∧
    handle db0 .guest .get (.addComment 1) fdEmpty =
      (db0, .redirect "/auth/login/?next=/posts/1/comment/") := by
  refine ⟨rfl, ?_⟩
  rw [C1_guest_redirected_to_login db0 .get (.addComment 1) fdEmpty rfl]
  rfl

/-- C8: a submission by an unauthenticated client to the post-creation or
comment-creation endpoint — any method, any form data, valid or not —
leaves the persistent store unchanged: in particular the total post count
and the target post's comment count are the same after the denied request
as before it. -/
theorem C8_guest_submission_no_change (db : DB) (m : Method) (fd : FormData)
    (pid : Nat) :
    (handle db .guest m .createPost fd).1 = db ∧
    (handle db .guest m (.addComment pid) fd).1 = db ∧
    (handle db .guest m .createPost fd).1.postCount = db.postCount ∧
    ((handle db .guest m (.addComment pid) fd).1.postComments pid).length =
      (db.postComments pid).length := by
  simp [handle, requiresLogin, protectedRoute]

/-- C4: an authenticated user who is not a post's author, requesting the
post's edit page with any method, is redirected to that post's detail page;
the store is unchanged (the edit is rejected) and the response is a plain
redirect, not an error status. -/
theorem C4_edit_nonauthor_redirected (db : DB) (u : String) (pid : Nat)
    (fd : FormData) (m : Method) (p : Post)
    (hp : db.findPost pid = some p) (h : p.author ≠ u) :
    handle db (.auth u) m (.postEdit pid) fd =
      (db, .redirect (routePath (.postDetail pid))) := by
  simp [handle, post_edit, hp, h]

/-- Witness for C4: the user `other` requesting the edit page of post 1,
whose author is `author`. -/
theorem C4_witness :
    db0.findPost 1 = some post1 ∧ post1.author ≠ "other" ∧
    handle db0 (.auth "other") .get (.postEdit 1) fdEmpty =
      (db0, .redirect "/posts/1/") := by
  refine ⟨rfl, by decide, ?_⟩
  rw [C4_edit_nonauthor_redirected db0 "other" 1 fdEmpty .get post1 rfl
    (by decide)]
  rfl

/-- C10: for every authenticated user, a plain GET request to
`/posts/<id>/comment/` redirects to that post's detail page, and a GET
request to `/profile/<username>/follow/` or `/profile/<username>/unfollow/`
redirects to that user's profile page. -/
theorem C10_authed_get_redirects (db : DB) (u : String) (pid : Nat)
    (uname : String) (fd : FormData) (p : Post)
    (hp : db.findPost pid = some p) :
    ((handle db (.auth u) .get (.addComment pid) fd).2 =
       .redirect (routePath (.postDetail pid))) ∧
    ((handle db (.auth u) .get (.profileFollow uname) fd).2 =
       .redirect (routePath (.profile uname))) ∧
    ((handle db (.auth u) .get (.profileUnfollow uname) fd).2 =
       .redirect (routePath (.profile uname))) := by
  refine ⟨?_, ?_, ?_⟩ <;>
    simp [handle, add_comment, profile_follow, profile_unfollow, hp]

/-- Witness for C10: the user `AuthorisedUser` GETs the comment route of
post 1 and the follow and unfollow routes of `author`. -/
theorem C10_witness :
    db0.findPost 1 = some post1 ∧
    ((handle db0 (.auth "AuthorisedUser") .get (.addComment 1) fdEmpty).2 =
       .redirect "/posts/1/") ∧
    ((handle db0 (.auth "AuthorisedUser") .get
        (.profileFollow "author") fdEmpty).2 = .redirect "/profile/author/") ∧
    ((handle db0 (.auth "AuthorisedUser") .get
        (.profileUnfollow "author") fdEmpty).2 =
       .redirect "/profile/author/") := by
  have h := C10_authed_get_redirects db0 "AuthorisedUser" 1 "author" fdEmpty
    post1 rfl
  exact ⟨rfl, h.1, h.2.1, h.2.2⟩

/-- C2: an authenticated user POSTing a valid post-creation form (non-empty
text; group and image optional) increments the total post count by exactly
one, is redirected to their own profile page, and the newly created post
(the first of the store) carries the submitted text and group and the
submitting user as author. -/
theorem C2_create_post (db : DB) (u : String) (fd : FormData) (t : String)
    (ht : fd.text = some t) (hne : t ≠ "") :
    ((handle db (.auth u) .post .createPost fd).1.postCount =
       db.postCount + 1) ∧
    ((handle db (.auth u) .post .createPost fd).2 =
       .redirect (routePath (.profile u))) ∧
    ∃ p : Post,
      (handle db (.auth u) .post .createPost fd).1.posts = p :: db.posts ∧
      p.text = t ∧ p.group = fd.group ∧ p.author = u := by
  have hv : fd.validText = some t := by simp [FormData.validText, ht, hne]
  simp only [handle, create_post, hv]
  refine ⟨by simp [DB.postCount], by trivial, ?_⟩
  exact ⟨_, rfl, rfl, rfl, rfl⟩

/-- Witness for C2: `author` submits text and group 1 over `db0`. -/
theorem C2_witness :
    fd0.text = some "Test text" ∧ ("Test text" : String) ≠ "" ∧
    ((handle db0 (.auth "author") .post .createPost fd0).1.postCount =
       db0.postCount + 1) ∧
    ((handle db0 (.auth "author") .post .createPost fd0).2 =
       .redirect "/profile/author/") ∧
    ∃ p : Post,
      (handle db0 (.auth "author") .post .createPost fd0).1.posts =
        p :: db0.posts ∧
      p.text = "Test text" ∧ p.group = some 1 ∧ p.author = "author" := by
  have h := C2_create_post db0 "author" fd0 "Test text" rfl (by decide)
  exact ⟨rfl, by decide, h.1, h.2.1, h.2.2⟩

/-- C5: the post newly created from a valid form appears in a group's
listing if and only if the form referenced that group — so it appears in no
other group's listing — and it always appears in the index listing and in
its author's profile listing. -/
theorem C5_new_post_listings (db : DB) (u : String) (fd : FormData)
    (t : String) (ht : fd.text = some t) (hne : t ≠ "") :
    ∃ p : Post,
      (handle db (.auth u) .post .createPost fd).1.posts = p :: db.posts ∧
      p ∈ indexPosts (handle db (.auth u) .post .createPost fd).1 ∧
      p ∈ profilePosts (handle db (.auth u) .post .createPost fd).1 u ∧
      ∀ g : Group,
        (p ∈ groupPosts (handle db (.auth u) .post .createPost fd).1 g ↔
          fd.group = some g.id) := by
  have hv : fd.validText = some t := by simp [FormData.validText, ht, hne]
  simp only [handle, create_post, hv]
  refine ⟨_, rfl, ?_, ?_, ?_⟩
  · simp [indexPosts]
  · simp [profilePosts, List.mem_filter]
  · intro g
    simp [groupPosts, List.mem_filter]

/-- Witness for C5: `author` submits text and group 1 over `db0`; the new
post is listed in group 1's page, not in a group with id 2. -/
theorem C5_witness :
    fd0.text = some "Test text" ∧ ("Test text" : String) ≠ "" ∧
    ∃ p : Post,
      (handle db0 (.auth "author") .post .createPost fd0).1.posts =
        p :: db0.posts ∧
      p ∈ indexPosts (handle db0 (.auth "author") .post .createPost fd0).1 ∧
      p ∈ profilePosts (handle db0 (.auth "author") .post .createPost fd0).1
          "author" ∧
      ∀ g : Group,
        (p ∈ groupPosts (handle db0 (.auth "author") .post .createPost fd0).1
            g ↔ fd0.group = some g.id) := by
  have h := C5_new_post_listings db0 "author" fd0 "Test text" rfl (by decide)
  exact ⟨rfl, by decide, h⟩

/-- Rewriting the posts whose id matches and then looking that id up finds
the rewritten first match, provided the rewrite keeps ids. -/
theorem find?_map_ite (l : List Post) (pid : Nat) (f : Post → Post)
    (hf : ∀ q : Post, (f q).id = q.id) (p : Post)
    (hp : l.find? (fun q => q.id == pid) = some p) :
    (l.map (fun q => if q.id == pid then f q else q)).find?
      (fun q => q.id == pid) = some (f p) := by
  induction l with
  | nil => simp at hp
  | cons a l ih =>
    by_cases ha : a.id = pid
    · rw [List.find?_cons_of_pos _ (by simp [ha])] at hp
      cases hp
      simp [ha, hf]
    · rw [List.find?_cons_of_neg _ (by simp [ha])] at hp
      simp only [List.map_cons, if_neg (by simp [ha] : ¬ (a.id == pid) = true)]
      rw [List.find?_cons_of_neg _ (by simp [ha])]
      exact ih hp

/-- C3: a valid edit submission by a post's author redirects to the post's
detail page, leaves the total post count unchanged, updates the post's text
and group to the submitted values, and leaves the post's author field
untouched. -/
theorem C3_edit_post (db : DB) (u : String) (pid : Nat) (fd : FormData)
    (p : Post) (t : String)
    (hp : db.findPost pid = some p) (hauth : p.author = u)
    (ht : fd.text = some t) (hne : t ≠ "") :
    ((handle db (.auth u) .post (.postEdit pid) fd).2 =
       .redirect (routePath (.postDetail pid))) ∧
    ((handle db (.auth u) .post (.postEdit pid) fd).1.postCount =
       db.postCount) ∧
    ∃ p' : Post,
      (handle db (.auth u) .post (.postEdit pid) fd).1.findPost pid =
        some p' ∧
      p'.text = t ∧ p'.group = fd.group ∧ p'.author = p.author := by
  have hv : fd.validText = some t := by simp [FormData.validText, ht, hne]
  have hau : ¬ (p.author ≠ u) := by simp [hauth]
  simp only [handle, post_edit, hp, hv, if_neg hau]
  refine ⟨by trivial, by simp [DB.postCount, DB.updatePost], ?_⟩
  have h := find?_map_ite db.posts pid
    (fun q =>
      { q with
        text := t
        group := fd.group
        image := match fd.image with | some i => some i | none => q.image })
    (fun q => rfl) p hp
  exact ⟨_, h, rfl, rfl, rfl⟩

/-- Witness for C3: `author` edits their post 1 with new text and group 1. -/
theorem C3_witness :
    db0.findPost 1 = some post1 ∧ post1.author = "author" ∧
    fd0.text = some "Test text" ∧ ("Test text" : String) ≠ "" ∧
    ((handle db0 (.auth "author") .post (.postEdit 1) fd0).2 =
       .redirect "/posts/1/") ∧
    ((handle db0 (.auth "author") .post (.postEdit 1) fd0).1.postCount =
       db0.postCount) ∧
    ∃ p' : Post,
      (handle db0 (.auth "author") .post (.postEdit 1) fd0).1.findPost 1 =
        some p' ∧
      p'.text = "Test text" ∧ p'.group = some 1 ∧ p'.author = "author" := by
  have h := C3_edit_post db0 "author" 1 fd0 post1 "Test text" rfl rfl rfl
    (by decide)
  exact ⟨rfl, rfl, rfl, by decide, h.1, h.2.1, h.2.2⟩

/-- C7: a valid comment submission by an authenticated user on an existing
post increments that post's comment count by exactly one, associates the
new comment with the submitting user and the target post, redirects to the
post's detail page, and the new comment is the last of the post's comment
list (the post-detail context). -/
theorem C7_comment_create (db : DB) (u : String) (pid : Nat) (fd : FormData)
    (p : Post) (t : String) (hp : db.findPost pid = some p)
    (ht : fd.text = some t) (hne : t ≠ "") :
    ((handle db (.auth u) .post (.addComment pid) fd).2 =
       .redirect (routePath (.postDetail pid))) ∧
    (((handle db (.auth u) .post (.addComment pid) fd).1.postComments
        pid).length = (db.postComments pid).length + 1) ∧
    ∃ c : Comment,
      ((handle db (.auth u) .post (.addComment pid) fd).1.postComments
          pid).getLast? = some c ∧
      c.author = u ∧ c.postId = pid ∧ c.text = t := by
  have hv : fd.validText = some t := by simp [FormData.validText, ht, hne]
  simp only [handle, add_comment, hp, hv]
  refine ⟨by trivial, ?_, ?_⟩
  · simp [DB.addComment, DB.postComments, List.filter_append]
  · refine ⟨{ id := db.nextCommentId, postId := pid, author := u, text := t },
      ?_, rfl, rfl, rfl⟩
    simp [DB.addComment, DB.postComments, List.filter_append,
      List.getLast?_concat]

/-- Witness for C7: `commentator` submits a comment on post 1 of `db0`. -/
theorem C7_witness :
    db0.findPost 1 = some post1 ∧ fd0.text = some "Test text" ∧
    ("Test text" : String) ≠ "" ∧
    ((handle db0 (.auth "commentator") .post (.addComment 1) fd0).2 =
       .redirect "/posts/1/") ∧
    (((handle db0 (.auth "commentator") .post (.addComment 1) fd0).1.postComments
        1).length = (db0.postComments 1).length + 1) ∧
    ∃ c : Comment,
      ((handle db0 (.auth "commentator") .post (.addComment 1) fd0).1.postComments
          1).getLast? = some c ∧
      c.author = "commentator" ∧ c.postId = 1 ∧ c.text = "Test text" := by
  have h := C7_comment_create db0 "commentator" 1 fd0 post1 "Test text" rfl
    rfl (by decide)
  exact ⟨rfl, rfl, by decide, h.1, h.2.1, h.2.2⟩

/-- Each page of a paginated listing holds the page size capped by what
remains past the previous pages. -/
theorem paginate_length {α : Type} (s : Nat) (items : List α) (page : Nat) :
    (paginate s items page).length = min s (items.length - (page - 1) * s) := by
  simp [paginate]

/-- The page size bounds the length of every page. -/
theorem paginate_length_le {α : Type} (s : Nat) (items : List α)
    (page : Nat) : (paginate s items page).length ≤ s := by
  rw [paginate_length]
  exact min_le_left _ _

/-- Arithmetic core of the last-page contract, on a total written as
`s * q + r` with `r < s`. -/
theorem last_page_arith (s q r : Nat) (hs : 0 < s) (hr : r < s)
    (hpos : 0 < s * q + r) :
    min s (s * q + r - (lastPage s (s * q + r) - 1) * s) =
      if r = 0 then s else r := by
  by_cases h0 : r = 0
  · subst h0
    have hq : 0 < q := by
      rcases Nat.eq_zero_or_pos q with hq0 | hq0
      · subst hq0; simp at hpos
      · exact hq0
    have hL : lastPage s (s * q + 0) = q := by
      unfold lastPage
      have h1 : s * q + 0 + s - 1 = (s - 1) + q * s := by
        rw [Nat.mul_comm s q]; omega
      rw [h1, Nat.add_mul_div_right _ _ hs, Nat.div_eq_of_lt (by omega)]
      omega
    rw [hL]
    have h3 : s ≤ q * s := Nat.le_mul_of_pos_left s hq
    have h4 : s * q + 0 - (q - 1) * s = s := by
      rw [Nat.sub_mul, Nat.one_mul, Nat.mul_comm s q]
      omega
    rw [h4]
    simp
  · have hr1 : 1 ≤ r := Nat.pos_of_ne_zero h0
    have hL : lastPage s (s * q + r) = q + 1 := by
      unfold lastPage
      have he : (q + 1) * s = q * s + s := by ring
      have h1 : s * q + r + s - 1 = (r - 1) + (q + 1) * s := by
        rw [he, Nat.mul_comm s q]; omega
      rw [h1, Nat.add_mul_div_right _ _ hs, Nat.div_eq_of_lt (by omega)]
      omega
    rw [hL]
    have h4 : s * q + r - (q + 1 - 1) * s = r := by
      rw [Nat.mul_comm s q]
      simp only [Nat.add_sub_cancel]
      omega
    rw [h4, if_neg h0]
    exact min_eq_right (Nat.le_of_lt hr)

/-- The last page of a paginated listing holds `total mod pageSize` items,
or a full page when the total divides evenly. -/
theorem paginate_lastPage_length {α : Type} (s : Nat) (items : List α)
    (hs : 0 < s) (h0 : 0 < items.length) :
    (paginate s items (lastPage s items.length)).length =
      if items.length % s = 0 then s else items.length % s := by
  have hqr : items.length = s * (items.length / s) + items.length % s :=
    (Nat.div_add_mod items.length s).symm
  have hr : items.length % s < s := Nat.mod_lt _ hs
  have h := last_page_arith s (items.length / s) (items.length % s) hs hr
    (by omega)
  rw [← hqr] at h
  rw [paginate_length]
  exact h

/-- C6: for the index, group-list and profile listing pages, the configured
page size constant `POSTS_PER_PAGE` bounds the number of items on every
page; the last page holds `total mod page_size` items, or a full page when
the total divides evenly; and listing 13 items with page size 10 yields
page 1 with 10 items and page 2 with 3 items. -/
theorem C6_pagination_contract (db : DB) (g : Group) (u : String)
    (page : Nat)
    (hi : 0 < (indexPosts db).length) (hg : 0 < (groupPosts db g).length)
    (hp : 0 < (profilePosts db u).length) :
    ((indexPage db page).length ≤ POSTS_PER_PAGE ∧
     (groupPage db g page).length ≤ POSTS_PER_PAGE ∧
     (profilePage db u page).length ≤ POSTS_PER_PAGE) ∧
    ((indexPage db
        (lastPage POSTS_PER_PAGE (indexPosts db).length)).length =
       if (indexPosts db).length % POSTS_PER_PAGE = 0 then POSTS_PER_PAGE
       else (indexPosts db).length % POSTS_PER_PAGE) ∧
    ((groupPage db g
        (lastPage POSTS_PER_PAGE (groupPosts db g).length)).length =
       if (groupPosts db g).length % POSTS_PER_PAGE = 0 then POSTS_PER_PAGE
       else (groupPosts db g).length % POSTS_PER_PAGE) ∧
    ((profilePage db u
        (lastPage POSTS_PER_PAGE (profilePosts db u).length)).length =
       if (profilePosts db u).length % POSTS_PER_PAGE = 0 then POSTS_PER_PAGE
       else (profilePosts db u).length % POSTS_PER_PAGE) ∧
    ((indexPage db13 1).length = POSTS_PER_PAGE ∧
     (indexPage db13 2).length = 3) := by
  refine ⟨⟨paginate_length_le _ _ _, paginate_length_le _ _ _,
    paginate_length_le _ _ _⟩, ?_, ?_, ?_, by decide, by decide⟩
  · exact paginate_lastPage_length POSTS_PER_PAGE (indexPosts db)
      (by decide) hi
  · exact paginate_lastPage_length POSTS_PER_PAGE (groupPosts db g)
      (by decide) hg
  · exact paginate_lastPage_length POSTS_PER_PAGE (profilePosts db u)
      (by decide) hp

/-- Witness for C6 over `db13`, its 13 posts all by `author` in group 1. -/
theorem C6_witness :
    (0 < (indexPosts db13).length ∧ 0 < (groupPosts db13 group1).length ∧
     0 < (profilePosts db13 "author").length) ∧
    ((indexPage db13 1).length ≤ POSTS_PER_PAGE ∧
     (groupPage db13 group1 1).length ≤ POSTS_PER_PAGE ∧
     (profilePage db13 "author" 1).length ≤ POSTS_PER_PAGE) ∧
    ((indexPage db13
        (lastPage POSTS_PER_PAGE (indexPosts db13).length)).length =
       if (indexPosts db13).length % POSTS_PER_PAGE = 0 then POSTS_PER_PAGE
       else (indexPosts db13).length % POSTS_PER_PAGE) ∧
    ((groupPage db13 group1
        (lastPage POSTS_PER_PAGE (groupPosts db13 group1).length)).length =
       if (groupPosts db13 group1).length % POSTS_PER_PAGE = 0 then
         POSTS_PER_PAGE
       else (groupPosts db13 group1).length % POSTS_PER_PAGE) ∧
    ((profilePage db13 "author"
        (lastPage POSTS_PER_PAGE
          (profilePosts db13 "author").length)).length =
       if (profilePosts db13 "author").length % POSTS_PER_PAGE = 0 then
         POSTS_PER_PAGE
       else (profilePosts db13 "author").length % POSTS_PER_PAGE) ∧
    ((indexPage db13 1).length = POSTS_PER_PAGE ∧
     (indexPage db13 2).length = 3) := by
  have h := C6_pagination_contract db13 group1 "author" 1 (by decide)
    (by decide) (by decide)
  exact ⟨⟨by decide, by decide, by decide⟩, h.1, h.2.1, h.2.2.1, h.2.2.2.1,
    h.2.2.2.2⟩

/-- C9: under the schema constraints of migration 0008 (both the `user` and
the `author` column of `Follow` are one-to-one), every user is the follower
in at most one `Follow` row and the followed author in at most one `Follow`
row. -/
theorem C9_follow_one_to_one (fs : List Follow) (h : followsWF fs)
    (u : String) :
    (fs.filter (fun f => f.user == some u)).length ≤ 1 ∧
    (fs.filter (fun f => f.author == some u)).length ≤ 1 := by
  have hu : (colValues fs "user").Nodup := h "user" (by decide)
  have ha : (colValues fs "author").Nodup := h "author" (by decide)
  have hu' : (fs.filterMap (fun f => f.col "user")).Nodup := hu
  have ha' : (fs.filterMap (fun f => f.col "author")).Nodup := ha
  constructor
  · exact length_filter_le_one_of_nodup_filterMap
      (fun f => f.col "user") fs hu' u
  · exact length_filter_le_one_of_nodup_filterMap
      (fun f => f.col "author") fs ha' u

/-- Witness for C9: a one-row follows table. -/
theorem C9_witness :
    followsWF [follow1] ∧
    (([follow1] : List Follow).filter
        (fun f => f.user == some "follower")).length ≤ 1 ∧
    (([follow1] : List Follow).filter
        (fun f => f.author == some "follower")).length ≤ 1 := by
  refine ⟨?_, C9_follow_one_to_one [follow1] ?_ "follower"⟩ <;> decide

end Yatube
